import Mathlib

/-! Verification of the layout optimizer of `paper-cut-optimizer`
(src/src/App.jsx).

The optimizer is the pure `rawLayout` computation (App.jsx lines 32–98): it
clamps eight raw numeric inputs, validates them, and computes two candidate
layouts (normal and rotated 90°) together with the key of the optimal one.
JavaScript numbers are modelled as rationals `ℚ`; `Number.EPSILON` is the
exact rational `2⁻⁵²`; `Math.floor` is the integer floor on `ℚ`; a raw input
is an `Option ℚ` where `none` models a `parseFloat` result of `NaN`.
-/

namespace PaperCut

/-- The constant `Number.EPSILON` of JavaScript, the exact rational 2⁻⁵². -/
def epsilon : ℚ := 1 / 2 ^ 52

/-- Clamping of one raw input, `Math.max(0, parseFloat(x) || 0)`
(App.jsx lines 34–48): `none` (a NaN parse) becomes `0`, then negative
values are clamped to `0`. -/
def clampInput (x : Option ℚ) : ℚ := max 0 (x.getD 0)

/-- One candidate layout (the `layoutA` / `layoutB` objects of App.jsx
lines 86–87). `fitW` is the column count, `fitH` the row count. -/
structure Candidate where
  total : ℤ
  fitW : ℤ
  fitH : ℤ
  rotated : Bool
  cutW : ℚ
  cutH : ℚ
deriving DecidableEq, Repr

/-- The key of the optimal candidate: `'A'` (normal) or `'B'` (rotated). -/
inductive OptKey where
  | A : OptKey
  | B : OptKey
deriving DecidableEq, Repr

/-- The object returned by the `rawLayout` `useMemo` (App.jsx lines 52, 56
and 85–96). In the two error branches `layoutA`, `layoutB` and
`optimalKey` are absent (`none`) and `error` holds the message. -/
structure RawLayout where
  layoutA : Option Candidate
  layoutB : Option Candidate
  optimalKey : Option OptKey
  sheetW : ℚ
  sheetH : ℚ
  grip : ℚ
  lateralMargin : ℚ
  gutter : ℚ
  tail : ℚ
  error : Option String
deriving DecidableEq, Repr

/-- The error message of App.jsx line 52 (invalid dimensions). -/
def invalidDimsMsg : String := "Las dimensiones deben ser positivas."

/-- The error message of App.jsx line 56 (margins exceed sheet). -/
def marginsMsg : String :=
  "Los márgenes o pinza/cola son demasiado grandes para el pliego."

/-- The usable width `effectiveW = SW - 2 * LM` (App.jsx line 60). -/
def effectiveW (SW LM : ℚ) : ℚ := SW - 2 * LM

/-- The usable height `effectiveH = SH - G_calc - T_calc`
(App.jsx line 61). -/
def effectiveH (SH Gc Tc : ℚ) : ℚ := SH - Gc - Tc

/-- The function `calculateFit` (App.jsx lines 64–68): how many pieces of length
`pieceLength` fit in `usableLength` with `gutterLength` between them,
with the `Number.EPSILON` bias before flooring. -/
def calculateFit (usableLength pieceLength gutterLength : ℚ) : ℤ :=
  if pieceLength + gutterLength ≤ 0 then 0
  else ⌊(usableLength + gutterLength) / (pieceLength + gutterLength) + epsilon⌋

/-- The pure computation of the `rawLayout` `useMemo` (App.jsx lines 32–98).
Arguments are the eight raw inputs in source order; note that per the
source's comment (lines 40–46) `grip` is used as the bottom clearance
(`T_calc`) and `tail` as the top clearance (`G_calc`). -/
def rawLayout (cutWidth cutHeight sheetWidth sheetHeight lateralMargin gutter tail grip :
    Option ℚ) : RawLayout :=
  let CW := clampInput cutWidth
  let CH := clampInput cutHeight
  let SW := clampInput sheetWidth
  let SH := clampInput sheetHeight
  let LM := clampInput lateralMargin
  let Tc := clampInput grip
  let Gc := clampInput tail
  let GT := clampInput gutter
  if CW ≤ 0 ∨ CH ≤ 0 ∨ SW ≤ 0 ∨ SH ≤ 0 then
    { layoutA := none, layoutB := none, optimalKey := none,
      sheetW := SW, sheetH := SH, grip := Tc, lateralMargin := LM,
      gutter := GT, tail := Gc, error := some invalidDimsMsg }
  else if Gc + Tc ≥ SH ∨ 2 * LM ≥ SW then
    { layoutA := none, layoutB := none, optimalKey := none,
      sheetW := SW, sheetH := SH, grip := Tc, lateralMargin := LM,
      gutter := GT, tail := Gc, error := some marginsMsg }
  else
    let effW := effectiveW SW LM
    let effH := effectiveH SH Gc Tc
    let fitW1 := calculateFit effW CW GT
    let fitH1 := calculateFit effH CH GT
    let total1 := fitW1 * fitH1
    let fitW2 := calculateFit effW CH GT
    let fitH2 := calculateFit effH CW GT
    let total2 := fitW2 * fitH2
    let optimalKey := if total1 ≥ total2 then OptKey.A else OptKey.B
    { layoutA := some ⟨total1, fitW1, fitH1, false, CW, CH⟩,
      layoutB := some ⟨total2, fitW2, fitH2, true, CH, CW⟩,
      optimalKey := some optimalKey,
      sheetW := SW, sheetH := SH, grip := Tc, lateralMargin := LM,
      gutter := GT, tail := Gc, error := none }

/-- The `rawLayout` body with its `let`-bindings expanded, for rewriting. -/
theorem rawLayout_def (cw ch sw sh lm g t gr : Option ℚ) :
    rawLayout cw ch sw sh lm g t gr =
    if clampInput cw ≤ 0 ∨ clampInput ch ≤ 0 ∨
        clampInput sw ≤ 0 ∨ clampInput sh ≤ 0 then
      { layoutA := none, layoutB := none, optimalKey := none,
        sheetW := clampInput sw, sheetH := clampInput sh, grip := clampInput gr,
        lateralMargin := clampInput lm, gutter := clampInput g,
        tail := clampInput t, error := some invalidDimsMsg }
    else if clampInput t + clampInput gr ≥ clampInput sh ∨
        2 * clampInput lm ≥ clampInput sw then
      { layoutA := none, layoutB := none, optimalKey := none,
        sheetW := clampInput sw, sheetH := clampInput sh, grip := clampInput gr,
        lateralMargin := clampInput lm, gutter := clampInput g,
        tail := clampInput t, error := some marginsMsg }
    else
      { layoutA := some ⟨calculateFit (effectiveW (clampInput sw) (clampInput lm))
            (clampInput cw) (clampInput g) *
            calculateFit (effectiveH (clampInput sh) (clampInput t) (clampInput gr))
            (clampInput ch) (clampInput g),
          calculateFit (effectiveW (clampInput sw) (clampInput lm))
            (clampInput cw) (clampInput g),
          calculateFit (effectiveH (clampInput sh) (clampInput t) (clampInput gr))
            (clampInput ch) (clampInput g),
          false, clampInput cw, clampInput ch⟩,
        layoutB := some ⟨calculateFit (effectiveW (clampInput sw) (clampInput lm))
            (clampInput ch) (clampInput g) *
            calculateFit (effectiveH (clampInput sh) (clampInput t) (clampInput gr))
            (clampInput cw) (clampInput g),
          calculateFit (effectiveW (clampInput sw) (clampInput lm))
            (clampInput ch) (clampInput g),
          calculateFit (effectiveH (clampInput sh) (clampInput t) (clampInput gr))
            (clampInput cw) (clampInput g),
          true, clampInput ch, clampInput cw⟩,
        optimalKey := some (if
            calculateFit (effectiveW (clampInput sw) (clampInput lm))
              (clampInput cw) (clampInput g) *
            calculateFit (effectiveH (clampInput sh) (clampInput t) (clampInput gr))
              (clampInput ch) (clampInput g) ≥
            calculateFit (effectiveW (clampInput sw) (clampInput lm))
              (clampInput ch) (clampInput g) *
            calculateFit (effectiveH (clampInput sh) (clampInput t) (clampInput gr))
              (clampInput cw) (clampInput g)
          then OptKey.A else OptKey.B),
        sheetW := clampInput sw, sheetH := clampInput sh, grip := clampInput gr,
        lateralMargin := clampInput lm, gutter := clampInput g,
        tail := clampInput t, error := none } := rfl

theorem epsilon_pos : (0:ℚ) < epsilon := by norm_num [epsilon]

theorem epsilon_lt_one : epsilon < 1 := by norm_num [epsilon]

/-- The echoed input fields of the result are the clamped raw inputs, in
every branch of the computation. -/
theorem rawLayout_echoes (cw ch sw sh lm g t gr : Option ℚ) :
    (rawLayout cw ch sw sh lm g t gr).sheetW = clampInput sw ∧
    (rawLayout cw ch sw sh lm g t gr).sheetH = clampInput sh ∧
    (rawLayout cw ch sw sh lm g t gr).grip = clampInput gr ∧
    (rawLayout cw ch sw sh lm g t gr).lateralMargin = clampInput lm ∧
    (rawLayout cw ch sw sh lm g t gr).gutter = clampInput g ∧
    (rawLayout cw ch sw sh lm g t gr).tail = clampInput t := by
  rw [rawLayout_def]
  split_ifs <;> exact ⟨rfl, rfl, rfl, rfl, rfl, rfl⟩

/-- C1: for every usable length `L`, piece length `P` and gutter `G`, the
per-axis fit is `0` when `P + G ≤ 0` and otherwise
`⌊(L + G) / (P + G) + ε⌋` with `ε` the fixed positive constant
`Number.EPSILON = 2⁻⁵²`; and for every request that produces candidates,
both candidates' column and row counts are this very function applied
independently per axis. -/
theorem calculateFit_formula (L P G : ℚ) (cw ch sw sh lm g t gr : Option ℚ) :
    0 < epsilon ∧
    (P + G ≤ 0 → calculateFit L P G = 0) ∧
    (0 < P + G → calculateFit L P G = ⌊(L + G) / (P + G) + epsilon⌋) ∧
    (∀ a, (rawLayout cw ch sw sh lm g t gr).layoutA = some a →
      a.fitW = calculateFit (effectiveW (clampInput sw) (clampInput lm))
        (clampInput cw) (clampInput g) ∧
      a.fitH = calculateFit (effectiveH (clampInput sh) (clampInput t) (clampInput gr))
        (clampInput ch) (clampInput g)) ∧
    (∀ b, (rawLayout cw ch sw sh lm g t gr).layoutB = some b →
      b.fitW = calculateFit (effectiveW (clampInput sw) (clampInput lm))
        (clampInput ch) (clampInput g) ∧
      b.fitH = calculateFit (effectiveH (clampInput sh) (clampInput t) (clampInput gr))
        (clampInput cw) (clampInput g)) := by
  refine ⟨epsilon_pos, fun h => by simp [calculateFit, h],
    fun h => by simp [calculateFit, not_le.mpr h], ?_, ?_⟩
  · intro a ha
    rw [rawLayout_def] at ha
    split_ifs at ha
    all_goals injection ha with ha
    all_goals subst ha
    all_goals exact ⟨rfl, rfl⟩
  · intro b hb
    rw [rawLayout_def] at hb
    split_ifs at hb
    all_goals injection hb with hb
    all_goals subst hb
    all_goals exact ⟨rfl, rfl⟩

/-- C2: the result carries the invalid-dimensions error iff some clamped
piece or sheet dimension is `≤ 0`; it carries the margins-exceed-sheet
error iff the dimensions are all positive and the clearances sum to at
least the sheet height or twice the lateral margin is at least the sheet
width; in either error case the result has no candidates and carries only
the error and the echoed clamped inputs. -/
theorem validation_gating (cw ch sw sh lm g t gr : Option ℚ) :
    ((rawLayout cw ch sw sh lm g t gr).error = some invalidDimsMsg ↔
      clampInput cw ≤ 0 ∨ clampInput ch ≤ 0 ∨
      clampInput sw ≤ 0 ∨ clampInput sh ≤ 0) ∧
    ((rawLayout cw ch sw sh lm g t gr).error = some marginsMsg ↔
      (0 < clampInput cw ∧ 0 < clampInput ch ∧
        0 < clampInput sw ∧ 0 < clampInput sh) ∧
      (clampInput t + clampInput gr ≥ clampInput sh ∨
        2 * clampInput lm ≥ clampInput sw)) ∧
    ((rawLayout cw ch sw sh lm g t gr).error ≠ none →
      (rawLayout cw ch sw sh lm g t gr).layoutA = none ∧
      (rawLayout cw ch sw sh lm g t gr).layoutB = none ∧
      (rawLayout cw ch sw sh lm g t gr).optimalKey = none ∧
      (rawLayout cw ch sw sh lm g t gr).sheetW = clampInput sw ∧
      (rawLayout cw ch sw sh lm g t gr).sheetH = clampInput sh ∧
      (rawLayout cw ch sw sh lm g t gr).grip = clampInput gr ∧
      (rawLayout cw ch sw sh lm g t gr).lateralMargin = clampInput lm ∧
      (rawLayout cw ch sw sh lm g t gr).gutter = clampInput g ∧
      (rawLayout cw ch sw sh lm g t gr).tail = clampInput t) := by
  rw [rawLayout_def]
  split_ifs with h1 h2
  all_goals refine ⟨?_, ?_, ?_⟩
  all_goals simp_all [invalidDimsMsg, marginsMsg, ← not_le]
  all_goals tauto

/-- Closed witness for `validation_gating` at a concrete erroneous input. -/
theorem validation_gating_witness :
    (rawLayout (some 0) (some 1) (some 1) (some 1) (some 0) (some 0) (some 0)
      (some 0)).error ≠ none ∧
    (rawLayout (some 0) (some 1) (some 1) (some 1) (some 0) (some 0) (some 0)
      (some 0)).layoutA = none := by
  have h := (validation_gating (some 0) (some 1) (some 1) (some 1) (some 0)
    (some 0) (some 0) (some 0)).2.2
  have he : (rawLayout (some 0) (some 1) (some 1) (some 1) (some 0) (some 0)
      (some 0) (some 0)).error ≠ none := by
    rw [rawLayout_def]
    simp [clampInput]
  exact ⟨he, (h he).1⟩

/-- C3: for every valid request both candidates are present, the optimal
key is `A` (normal) exactly when the normal total is at least the rotated
total, `B` (rotated) exactly when the rotated total is strictly larger,
and on ties the normal candidate is always selected. -/
theorem optimal_selection (cw ch sw sh lm g t gr : Option ℚ)
    (h : (rawLayout cw ch sw sh lm g t gr).error = none) :
    ∃ a b, (rawLayout cw ch sw sh lm g t gr).layoutA = some a ∧
      (rawLayout cw ch sw sh lm g t gr).layoutB = some b ∧
      ((rawLayout cw ch sw sh lm g t gr).optimalKey = some OptKey.A ↔
        b.total ≤ a.total) ∧
      ((rawLayout cw ch sw sh lm g t gr).optimalKey = some OptKey.B ↔
        a.total < b.total) ∧
      (a.total = b.total →
        (rawLayout cw ch sw sh lm g t gr).optimalKey = some OptKey.A) := by
  rw [rawLayout_def] at h ⊢
  split_ifs at h ⊢ with h1 h2 h3
  · exact ⟨_, _, rfl, rfl, by simpa using h3,
      by simp [not_lt.mpr h3], fun _ => rfl⟩
  · refine ⟨_, _, rfl, rfl, by simpa using not_le.mp h3, ?_, ?_⟩
    · simpa using not_le.mp h3
    · intro he
      exact absurd (le_of_eq he.symm) (by simpa using h3)

/-- Closed witness for `optimal_selection` at a concrete valid input. -/
theorem optimal_selection_witness :
    ∃ a b, (rawLayout (some 2) (some 2) (some 10) (some 10) (some 0) (some 0)
        (some 0) (some 0)).layoutA = some a ∧
      (rawLayout (some 2) (some 2) (some 10) (some 10) (some 0) (some 0)
        (some 0) (some 0)).layoutB = some b ∧
      ((rawLayout (some 2) (some 2) (some 10) (some 10) (some 0) (some 0)
        (some 0) (some 0)).optimalKey = some OptKey.A ↔ b.total ≤ a.total) ∧
      ((rawLayout (some 2) (some 2) (some 10) (some 10) (some 0) (some 0)
        (some 0) (some 0)).optimalKey = some OptKey.B ↔ a.total < b.total) ∧
      (a.total = b.total →
        (rawLayout (some 2) (some 2) (some 10) (some 10) (some 0) (some 0)
          (some 0) (some 0)).optimalKey = some OptKey.A) :=
  optimal_selection (some 2) (some 2) (some 10) (some 10) (some 0) (some 0)
    (some 0) (some 0) (by rw [rawLayout_def]; norm_num [clampInput])

/-- C4: Scenario 1 — piece 8.5×11 on sheet 17×22 with lateral margin
0.375, gutter 0.125, top clearance (tail) 0.375 and bottom clearance
(grip) 0.5 gives usable width 16.25 and usable height 21.125, a normal
candidate 1×1 (total 1), a rotated candidate 1 column × 2 rows (total 2),
and selects the rotated candidate. -/
theorem scenario1 :
    effectiveW 17 (3/8) = 65/4 ∧
    effectiveH 22 (3/8) (1/2) = 169/8 ∧
    rawLayout (some (17/2)) (some 11) (some 17) (some 22) (some (3/8))
      (some (1/8)) (some (3/8)) (some (1/2)) =
    { layoutA := some ⟨1, 1, 1, false, 17/2, 11⟩,
      layoutB := some ⟨2, 1, 2, true, 11, 17/2⟩,
      optimalKey := some OptKey.B,
      sheetW := 17, sheetH := 22, grip := 1/2, lateralMargin := 3/8,
      gutter := 1/8, tail := 3/8, error := none } := by
  refine ⟨by norm_num [effectiveW], by norm_num [effectiveH], ?_⟩
  rw [rawLayout_def]
  norm_num [clampInput, effectiveW, effectiveH, calculateFit, epsilon]

/-- C5: every candidate present in a result satisfies
`total = columns * rows`. -/
theorem total_consistency (cw ch sw sh lm g t gr : Option ℚ) (c : Candidate)
    (hc : (rawLayout cw ch sw sh lm g t gr).layoutA = some c ∨
      (rawLayout cw ch sw sh lm g t gr).layoutB = some c) :
    c.total = c.fitW * c.fitH := by
  rw [rawLayout_def] at hc
  rcases hc with hc | hc
  · split_ifs at hc
    all_goals injection hc with hc
    all_goals subst hc
    all_goals rfl
  · split_ifs at hc
    all_goals injection hc with hc
    all_goals subst hc
    all_goals rfl

/-- Closed witness for `total_consistency` at a concrete valid input. -/
theorem total_consistency_witness :
    (⟨25, 5, 5, false, 2, 2⟩ : Candidate).total =
      (⟨25, 5, 5, false, 2, 2⟩ : Candidate).fitW *
      (⟨25, 5, 5, false, 2, 2⟩ : Candidate).fitH :=
  total_consistency (some 2) (some 2) (some 10) (some 10) (some 0) (some 0)
    (some 0) (some 0) ⟨25, 5, 5, false, 2, 2⟩
    (Or.inl (by
      rw [rawLayout_def]
      norm_num [clampInput, effectiveW, effectiveH, calculateFit, epsilon]))

/-- C6: an exact fit `L = N * P + (N - 1) * G` yields fit exactly `N`:
the epsilon bias never loses the boundary case (and, being below 1, never
overshoots it). -/
theorem exact_fit_boundary (N : ℕ) (L P G : ℚ) (hN : 0 < N) (hP : 0 < P)
    (hG : 0 ≤ G) (hL : L = N * P + ((N : ℚ) - 1) * G) :
    calculateFit L P G = N := by
  have hPG : 0 < P + G := by linarith
  have hnum : L + G = (N : ℚ) * (P + G) := by rw [hL]; ring
  have hdiv : (L + G) / (P + G) = (N : ℚ) := by
    rw [hnum, mul_div_assoc, div_self (ne_of_gt hPG), mul_one]
  have hcast : ((N : ℚ) + epsilon) = ((N : ℤ) : ℚ) + epsilon := by push_cast; ring
  rw [calculateFit, if_neg (not_le.mpr hPG), hdiv, hcast, Int.floor_int_add]
  have hfe : ⌊epsilon⌋ = 0 := by norm_num [epsilon]
  rw [hfe, add_zero]

/-- Closed witness for `exact_fit_boundary`: three pieces of length 2 with
gutter 1 fill a usable length of 8 exactly. -/
theorem exact_fit_boundary_witness : calculateFit 8 2 1 = 3 := by
  have h := exact_fit_boundary 3 8 2 1 (by norm_num) (by norm_num) (by norm_num)
    (by norm_num)
  exact_mod_cast h

/-- C7 is refuted: on the valid request piece 2×2, sheet 1×10, all margins
and clearances 0, raising the gutter from 0 to 2⁵³ raises the normal
candidate's column count from 0 to 1 — the epsilon bias lifts
`(1 + G) / (2 + G) + ε` to 1 once `G` is large enough. -/
theorem gutter_mono_counterexample :
    (rawLayout (some 2) (some 2) (some 1) (some 10) (some 0) (some 0)
      (some 0) (some 0)).error = none ∧
    (rawLayout (some 2) (some 2) (some 1) (some 10) (some 0) (some (2^53))
      (some 0) (some 0)).error = none ∧
    (0:ℚ) < 2^53 ∧
    (rawLayout (some 2) (some 2) (some 1) (some 10) (some 0) (some 0)
      (some 0) (some 0)).layoutA = some ⟨0, 0, 5, false, 2, 2⟩ ∧
    (rawLayout (some 2) (some 2) (some 1) (some 10) (some 0) (some (2^53))
      (some 0) (some 0)).layoutA = some ⟨1, 1, 1, false, 2, 2⟩ ∧
    (0:ℤ) < 1 := by
  refine ⟨?_, ?_, by norm_num, ?_, ?_, by norm_num⟩ <;>
    (rw [rawLayout_def];
     norm_num [clampInput, effectiveW, effectiveH, calculateFit, epsilon])

/-- Auxiliary: the per-axis fit is antitone in the gutter as long as the
piece length does not exceed the usable length. -/
theorem calculateFit_gutter_anti (L P g g' : ℚ) (hP : 0 < P) (hg : 0 ≤ g)
    (hgg : g ≤ g') (hPL : P ≤ L) :
    calculateFit L P g' ≤ calculateFit L P g := by
  have h1 : 0 < P + g := by linarith
  have h2 : 0 < P + g' := by linarith
  rw [calculateFit, calculateFit, if_neg (not_le.mpr h1),
    if_neg (not_le.mpr h2)]
  have hd : (L + g') / (P + g') ≤ (L + g) / (P + g) := by
    rw [div_le_div_iff₀ h2 h1]
    nlinarith
  exact Int.floor_le_floor (by linarith)

/-- C7 amended: on a valid request whose piece dimensions both fit in both
usable dimensions, increasing the gutter never increases either
candidate's columns or rows. (Without that restriction the property fails:
see the counterexample, where a piece wider than the usable width gains a
column under an enormous gutter.) -/
theorem gutter_mono_amended (cw ch sw sh lm t gr : Option ℚ) (g g' : ℚ)
    (hg : 0 ≤ g) (hgg : g ≤ g')
    (hcwW : clampInput cw ≤ effectiveW (clampInput sw) (clampInput lm))
    (hchW : clampInput ch ≤ effectiveW (clampInput sw) (clampInput lm))
    (hcwH : clampInput cw ≤
      effectiveH (clampInput sh) (clampInput t) (clampInput gr))
    (hchH : clampInput ch ≤
      effectiveH (clampInput sh) (clampInput t) (clampInput gr))
    (a a' b b' : Candidate)
    (ha : (rawLayout cw ch sw sh lm (some g) t gr).layoutA = some a)
    (ha' : (rawLayout cw ch sw sh lm (some g') t gr).layoutA = some a')
    (hb : (rawLayout cw ch sw sh lm (some g) t gr).layoutB = some b)
    (hb' : (rawLayout cw ch sw sh lm (some g') t gr).layoutB = some b') :
    a'.fitW ≤ a.fitW ∧ a'.fitH ≤ a.fitH ∧
    b'.fitW ≤ b.fitW ∧ b'.fitH ≤ b.fitH := by
  have hgc : clampInput (some g) = g := max_eq_right hg
  have hgc' : clampInput (some g') = g' := max_eq_right (le_trans hg hgg)
  rw [rawLayout_def] at ha ha' hb hb'
  split_ifs at ha ha' hb hb' with h1 h2
  all_goals push_neg at h1
  all_goals injection ha with ha
  all_goals injection ha' with ha'
  all_goals injection hb with hb
  all_goals injection hb' with hb'
  all_goals subst ha
  all_goals subst ha'
  all_goals subst hb
  all_goals subst hb'
  all_goals rw [hgc, hgc']
  all_goals exact
    ⟨calculateFit_gutter_anti _ _ _ _ h1.1 hg hgg hcwW,
     calculateFit_gutter_anti _ _ _ _ h1.2.1 hg hgg hchH,
     calculateFit_gutter_anti _ _ _ _ h1.2.1 hg hgg hchW,
     calculateFit_gutter_anti _ _ _ _ h1.1 hg hgg hcwH⟩

/-- Closed witness for `gutter_mono_amended`: piece 2×2 on sheet 10×10
with no margins, gutter raised from 0 to 1, fits drop from 5 to 3. -/
theorem gutter_mono_amended_witness :
    (⟨9, 3, 3, false, 2, 2⟩ : Candidate).fitW ≤
      (⟨25, 5, 5, false, 2, 2⟩ : Candidate).fitW ∧
    (⟨9, 3, 3, false, 2, 2⟩ : Candidate).fitH ≤
      (⟨25, 5, 5, false, 2, 2⟩ : Candidate).fitH ∧
    (⟨9, 3, 3, true, 2, 2⟩ : Candidate).fitW ≤
      (⟨25, 5, 5, true, 2, 2⟩ : Candidate).fitW ∧
    (⟨9, 3, 3, true, 2, 2⟩ : Candidate).fitH ≤
      (⟨25, 5, 5, true, 2, 2⟩ : Candidate).fitH :=
  gutter_mono_amended (some 2) (some 2) (some 10) (some 10) (some 0) (some 0)
    (some 0) 0 1 (by norm_num) (by norm_num)
    (by norm_num [clampInput, effectiveW])
    (by norm_num [clampInput, effectiveW])
    (by norm_num [clampInput, effectiveH])
    (by norm_num [clampInput, effectiveH])
    _ _ _ _
    (by rw [rawLayout_def]
        norm_num [clampInput, effectiveW, effectiveH, calculateFit, epsilon])
    (by rw [rawLayout_def]
        norm_num [clampInput, effectiveW, effectiveH, calculateFit, epsilon])
    (by rw [rawLayout_def]
        norm_num [clampInput, effectiveW, effectiveH, calculateFit, epsilon])
    (by rw [rawLayout_def]
        norm_num [clampInput, effectiveW, effectiveH, calculateFit, epsilon])

/-- C8: every numeric value used by the computation is `max 0 (parsed)`
of its raw input: a missing (non-numeric) parse becomes 0, a non-positive
parse becomes 0, the echoed result fields are the clamped inputs, and the
whole computation is unchanged by pre-clamping every raw input. -/
theorem input_clamping (x : Option ℚ) (v : ℚ)
    (cw ch sw sh lm g t gr : Option ℚ) :
    clampInput x = max 0 (x.getD 0) ∧
    clampInput none = 0 ∧
    (v ≤ 0 → clampInput (some v) = 0) ∧
    (rawLayout cw ch sw sh lm g t gr).sheetW = clampInput sw ∧
    (rawLayout cw ch sw sh lm g t gr).sheetH = clampInput sh ∧
    (rawLayout cw ch sw sh lm g t gr).grip = clampInput gr ∧
    (rawLayout cw ch sw sh lm g t gr).lateralMargin = clampInput lm ∧
    (rawLayout cw ch sw sh lm g t gr).gutter = clampInput g ∧
    (rawLayout cw ch sw sh lm g t gr).tail = clampInput t ∧
    rawLayout cw ch sw sh lm g t gr =
      rawLayout (some (clampInput cw)) (some (clampInput ch))
        (some (clampInput sw)) (some (clampInput sh)) (some (clampInput lm))
        (some (clampInput g)) (some (clampInput t)) (some (clampInput gr)) := by
  have key : ∀ y : Option ℚ, clampInput (some (clampInput y)) = clampInput y :=
    fun y => max_eq_right (le_max_left 0 _)
  obtain ⟨e1, e2, e3, e4, e5, e6⟩ := rawLayout_echoes cw ch sw sh lm g t gr
  refine ⟨rfl, rfl, fun hv => max_eq_left hv, e1, e2, e3, e4, e5, e6, ?_⟩
  conv_rhs => rw [rawLayout_def]
  rw [rawLayout_def]
  simp only [key]

/-- Closed witness for `input_clamping`: a negative raw input is clamped
to zero. -/
theorem input_clamping_witness : clampInput (some (-1)) = 0 :=
  (input_clamping none (-1) none none none none none none none none).2.2.1
    (by norm_num)

/-- C9: swapping the two clearance inputs (the code's grip and tail)
leaves the error status, both candidates and the optimal selection
unchanged — the computation uses the clearances only through their sum. -/
theorem clearance_swap (cw ch sw sh lm g t gr : Option ℚ) :
    (rawLayout cw ch sw sh lm g gr t).error =
      (rawLayout cw ch sw sh lm g t gr).error ∧
    (rawLayout cw ch sw sh lm g gr t).layoutA =
      (rawLayout cw ch sw sh lm g t gr).layoutA ∧
    (rawLayout cw ch sw sh lm g gr t).layoutB =
      (rawLayout cw ch sw sh lm g t gr).layoutB ∧
    (rawLayout cw ch sw sh lm g gr t).optimalKey =
      (rawLayout cw ch sw sh lm g t gr).optimalKey := by
  have hsum : clampInput gr + clampInput t = clampInput t + clampInput gr :=
    add_comm _ _
  have heff : effectiveH (clampInput sh) (clampInput gr) (clampInput t) =
      effectiveH (clampInput sh) (clampInput t) (clampInput gr) := by
    unfold effectiveH
    ring
  rw [rawLayout_def, rawLayout_def, hsum, heff]
  split_ifs <;> exact ⟨rfl, rfl, rfl, rfl⟩

/-- C10: swapping the piece's width and height inputs exchanges the two
candidates' column, row and total counts, and preserves the error
status. -/
theorem piece_swap (cw ch sw sh lm g t gr : Option ℚ) :
    (rawLayout ch cw sw sh lm g t gr).error =
      (rawLayout cw ch sw sh lm g t gr).error ∧
    (rawLayout cw ch sw sh lm g t gr).layoutB.map
        (fun c => (c.fitW, c.fitH, c.total)) =
      (rawLayout ch cw sw sh lm g t gr).layoutA.map
        (fun c => (c.fitW, c.fitH, c.total)) ∧
    (rawLayout cw ch sw sh lm g t gr).layoutA.map
        (fun c => (c.fitW, c.fitH, c.total)) =
      (rawLayout ch cw sw sh lm g t gr).layoutB.map
        (fun c => (c.fitW, c.fitH, c.total)) := by
  by_cases h1 : clampInput cw ≤ 0 ∨ clampInput ch ≤ 0 ∨
      clampInput sw ≤ 0 ∨ clampInput sh ≤ 0
  · have h1s : clampInput ch ≤ 0 ∨ clampInput cw ≤ 0 ∨
        clampInput sw ≤ 0 ∨ clampInput sh ≤ 0 := by tauto
    rw [rawLayout_def, rawLayout_def, if_pos h1, if_pos h1s]
    exact ⟨rfl, rfl, rfl⟩
  · have h1s : ¬(clampInput ch ≤ 0 ∨ clampInput cw ≤ 0 ∨
        clampInput sw ≤ 0 ∨ clampInput sh ≤ 0) := by tauto
    rw [rawLayout_def, rawLayout_def, if_neg h1, if_neg h1s]
    by_cases h2 : clampInput t + clampInput gr ≥ clampInput sh ∨
        2 * clampInput lm ≥ clampInput sw
    · rw [if_pos h2, if_pos h2]
      exact ⟨rfl, rfl, rfl⟩
    · rw [if_neg h2, if_neg h2]
      exact ⟨rfl, rfl, rfl⟩

/-- Closed witness for `calculateFit_formula` at concrete inputs. -/
theorem calculateFit_formula_witness :
    calculateFit 5 (-2) 1 = 0 ∧
    calculateFit 10 2 1 = ⌊((10:ℚ) + 1) / (2 + 1) + epsilon⌋ ∧
    (⟨1, 1, 1, false, 17/2, 11⟩ : Candidate).fitW =
      calculateFit (effectiveW (clampInput (some 17)) (clampInput (some (3/8))))
        (clampInput (some (17/2))) (clampInput (some (1/8))) := by
  refine ⟨(calculateFit_formula 5 (-2) 1 none none none none none none none none).2.1
      (by norm_num),
    (calculateFit_formula 10 2 1 none none none none none none none none).2.2.1
      (by norm_num), ?_⟩
  have h := (calculateFit_formula 0 0 0 (some (17/2)) (some 11) (some 17) (some 22)
      (some (3/8)) (some (1/8)) (some (3/8)) (some (1/2))).2.2.2.1
      ⟨1, 1, 1, false, 17/2, 11⟩ ?_
  · exact h.1
  · rw [rawLayout_def]
    norm_num [clampInput, effectiveW, effectiveH, calculateFit, epsilon]

end PaperCut
